import Mathlib

/-!
Verification of the authentication and session-issuance flow of the
Cloud-Storage repository (`src/backend/middleware/auth.js`,
`src/backend/routes/files.js`, `src/backend/models/User.js`).

The backend is Express + Mongoose + bcryptjs + jsonwebtoken +
firebase-admin.  We give a shallow embedding:

* machine state is the Mongo `users` collection, modelled as a list of
  records plus an id counter;
* `bcrypt` is modelled extensionally: a digest is a `(salt, value)` pair
  where `value` is produced by an arbitrary core function of salt and
  plaintext (the real scheme is a fixed such function);
* a JWT is modelled extensionally as its payload together with the secret
  it was signed with; `jwtVerify` follows the `jsonwebtoken` library:
  signature must match and verification fails with `TokenExpiredError`
  exactly when `clockTimestamp >= payload.exp` (RFC 7519: the current
  time must be *before* `exp`);
* the firebase-admin `verifyIdToken` call is an external collaborator;
  following the spec (§4.3) an assertion carries its subject id, its
  phone-number claim, and a validity flag saying whether the provider
  accepts it.

Clocks are Unix timestamps in seconds (`Nat`).
-/

/-- The `authProvider` enum of `userSchema` in `src/backend/models/User.js`:
`enum: ['email', 'phone']`. -/
inductive AuthProvider where
  | email
  | phone
deriving DecidableEq, Repr

/-- One document of the Mongo `users` collection
(`src/backend/models/User.js`).  A `passwordHash` is a bcrypt digest as
modelled below (salt, value); ids are abstract `Nat`s standing for Mongo
ObjectIds. -/
structure User where
  id : Nat
  email : Option String
  phoneNumber : Option String
  passwordHash : Option (Nat × Nat)
  authProvider : AuthProvider
  createdAt : Nat
  lastLogin : Nat
deriving DecidableEq, Repr

/-- The users collection plus the id allocator. -/
structure DB where
  users : List User
  nextId : Nat
deriving DecidableEq, Repr

/-- The empty database. -/
def emptyDB : DB := { users := [], nextId := 0 }

/-! ## bcrypt model (`bcryptjs`: `genSalt` / `hash` / `compare`)

A bcrypt digest records the salt inside the digest string, and
`bcrypt.compare` re-hashes the plaintext with that salt and compares.
We model the cost-parameterized core as an arbitrary function
`core : Nat → String → Nat` (salt, plaintext ↦ value); randomization
lives in the salt argument supplied per call. -/

/-- Model of `bcrypt.hash(pw, salt)`: the digest embeds the salt and the
core hash value. -/
def bcryptHash (core : Nat → String → Nat) (salt : Nat) (pw : String) : Nat × Nat :=
  (salt, core salt pw)

/-- Model of `bcrypt.compare(pw, digest)`: extract the salt from the
digest, re-run the core, compare the values. -/
def bcryptCompare (core : Nat → String → Nat) (pw : String) (digest : Nat × Nat) : Bool :=
  core digest.1 pw == digest.2

/-! ## JWT model (`jsonwebtoken`: `sign` / `verify`) -/

/-- Payload of the tokens this backend signs.  `/auth/login` signs
`{userId, email, authProvider}`, `/auth/phone-login` signs
`{userId, phoneNumber, authProvider}`; `jwt.sign` adds `iat` and, from
`expiresIn: '7d'`, `exp = iat + 7*24*60*60`. -/
structure JwtPayload where
  userId : Nat
  email : Option String
  phoneNumber : Option String
  authProvider : AuthProvider
  iat : Nat
  exp : Nat
deriving DecidableEq, Repr

/-- A signed token, modelled extensionally as its payload plus the secret
it was signed with (an unforgeable-MAC model: verification with a secret
succeeds exactly on tokens signed with that same secret). -/
structure JwtToken where
  payload : JwtPayload
  signedWith : String
deriving DecidableEq, Repr

/-- Model of `jwt.sign(payload, secret)`. -/
def jwtSign (secret : String) (payload : JwtPayload) : JwtToken :=
  { payload := payload, signedWith := secret }

/-- Seconds in `expiresIn: '7d'`. -/
def sessionExpirySeconds : Nat := 7 * 24 * 60 * 60

/-- Model of `jwt.verify(token, secret)` at clock time `clock` (seconds):
the `jsonwebtoken` library checks the signature and then throws
`TokenExpiredError` when `clockTimestamp >= payload.exp`, so a token is
accepted exactly when the secret matches and `clock < exp`. -/
def jwtVerify (secret : String) (clock : Nat) (tok : JwtToken) : Option JwtPayload :=
  if tok.signedWith == secret && clock < tok.payload.exp then
    some tok.payload
  else
    none

/-! ## External identity provider model (firebase-admin) -/

/-- Modelled from the spec: the external phone-identity provider
(§4.3, an external collaborator, not part of this repository's source).
An assertion carries the subject id (`uid`), the signed phone-number
claim (`phone_number`, which a non-phone assertion may lack), and a flag
recording whether the provider's `verifyIdToken` accepts it. -/
structure FirebaseAssertion where
  uid : Nat
  phone_number : Option String
  valid : Bool
deriving DecidableEq, Repr

/-- The bearer credential carried by a request: a self-issued session
token, an external-provider assertion, or an arbitrary malformed string
that neither verifier accepts. -/
inductive Credential where
  | session (tok : JwtToken)
  | assertion (fb : FirebaseAssertion)
  | malformed (raw : String)
deriving DecidableEq, Repr

/-- Path-1 verification of a credential: `jwt.verify` succeeds only on a
well-formed self-issued token with the right secret, unexpired. -/
def jwtVerifyCred (secret : String) (clock : Nat) : Credential → Option JwtPayload
  | .session tok => jwtVerify secret clock tok
  | _ => none

/-- Path-2 verification: `admin.auth().verifyIdToken` succeeds only on an
assertion the provider accepts. -/
def firebaseVerifyCred : Credential → Option FirebaseAssertion
  | .assertion fb => if fb.valid then some fb else none
  | _ => none

/-! ## Session Verifier (`verifyToken` in `src/backend/middleware/auth.js`) -/

/-- The principal shape stored into `req.user`.  The JWT path stores the
decoded payload (with its `iat`/`exp`); the firebase path synthesizes
`{userId, phoneNumber, authProvider: 'phone'}`. -/
structure Principal where
  userId : Nat
  email : Option String
  phoneNumber : Option String
  authProvider : AuthProvider
  iat : Option Nat
  exp : Option Nat
deriving DecidableEq, Repr

/-- The principal a decoded self-issued JWT payload yields
(`req.user = decoded`). -/
def payloadPrincipal (p : JwtPayload) : Principal :=
  { userId := p.userId, email := p.email, phoneNumber := p.phoneNumber,
    authProvider := p.authProvider, iat := some p.iat, exp := some p.exp }

/-- The `Authorization` header once parsed: whether it started with the
`Bearer ` scheme, and the credential carried after it
(`authHeader.substring(7)`). -/
structure BearerHeader where
  bearerScheme : Bool
  token : Credential
deriving DecidableEq, Repr

/-- Outcome of the middleware: call `next()` with a principal in
`req.user`, or respond with an error status and message. -/
inductive AuthOutcome where
  | proceed (principal : Principal)
  | reject (status : Nat) (error : String)
deriving DecidableEq, Repr

/-- The `verifyToken` middleware of `src/backend/middleware/auth.js`:
missing or non-Bearer header is rejected 401; otherwise try
`jwt.verify` with the server secret, and on any failure fall through
(the error is swallowed) to `admin.auth().verifyIdToken`; if that also
fails, reject 401 `Invalid token`. -/
def verifyToken (secret : String) (clock : Nat) (authHeader : Option BearerHeader) :
    AuthOutcome :=
  match authHeader with
  | none => .reject 401 "No token provided"
  | some h =>
    if !h.bearerScheme then
      .reject 401 "No token provided"
    else
      match jwtVerifyCred secret clock h.token with
      | some decoded => .proceed (payloadPrincipal decoded)
      | none =>
        match firebaseVerifyCred h.token with
        | some decodedToken =>
          .proceed { userId := decodedToken.uid, email := none,
                     phoneNumber := decodedToken.phone_number,
                     authProvider := .phone, iat := none, exp := none }
        | none => .reject 401 "Invalid token"

/-! ## Request validation (`express-validator` chains on the routes)

`/auth/register` uses `body('email').isEmail().normalizeEmail()` and
`body('password').isLength({ min: 6 })`; `/auth/login` uses
`body('email').isEmail().normalizeEmail()` and
`body('password').notEmpty()`.  The validator runs before the sanitizer,
so `isEmail` sees the raw client string. -/

/-- Lowercasing of a string, character by character (the semantics of
`String.toLowerCase` in JS and of `String.toLower`, given structurally
over the character list). -/
def strLower (s : String) : String := ⟨s.data.map Char.toLower⟩

/-- Trimming of leading and trailing whitespace (the semantics of
`String.prototype.trim`, given structurally over the character list). -/
def strTrim (s : String) : String :=
  ⟨((s.data.dropWhile Char.isWhitespace).reverse.dropWhile Char.isWhitespace).reverse⟩

/-- Splitting a character list at every occurrence of a separator
character; `acc` holds the current chunk reversed. -/
def splitOnCharAux (c : Char) : List Char → List Char → List (List Char)
  | [], acc => [acc.reverse]
  | x :: xs, acc =>
    if x = c then acc.reverse :: splitOnCharAux c xs []
    else splitOnCharAux c xs (x :: acc)

/-- Splitting a character list at every occurrence of a separator. -/
def splitOnChar (c : Char) (l : List Char) : List (List Char) :=
  splitOnCharAux c l []

/-- Splitting a character list at the last occurrence of a separator:
`some (before, after)` when the separator occurs, `none` otherwise.  The
`validator` library takes the domain as the substring after the last `@`
and rejoins everything before it as the local part. -/
def splitAtLastChar (sep : Char) : List Char → Option (List Char × List Char)
  | [] => none
  | x :: xs =>
    match splitAtLastChar sep xs with
    | some (a, b) => some (x :: a, b)
    | none => if x = sep then some ([], xs) else none

/-- Characters the `validator` library's unquoted local-part atom regex
(`emailUserPart`) accepts: ASCII alphanumerics and the RFC specials
(apostrophe, backtick and the braces are matched by code point to keep
the source plain).  Restriction: the UTF-8 extension of the local part
is not modelled.  Whitespace is not in the class. -/
def emailAtomChar (c : Char) : Bool :=
  c.isAlphanum ||
  ['!', '#', '$', '%', '&', '*', '+', '-', '/', '=', '?', '^', '_', '~',
    '|'].contains c ||
  c.toNat == 39 || c.toNat == 96 || c.toNat == 123 || c.toNat == 125

/-- Characters the `validator` library allows inside a quoted local part
(`quotedEmailUserUtf8`): everything — whitespace included — except the
quote itself and the backslash (code 92).  Restriction:
backslash-escape pairs and the excluded control characters are not
modelled. -/
def quotedLocalChar (c : Char) : Bool :=
  !(c == '"') && !(c.toNat == 92)

/-- Characters the `validator` library's `isFQDN` (default options)
allows in a domain label: alphanumerics and hyphens (underscores are
rejected by default).  Restriction: the unicode ranges are not
modelled.  Whitespace is not in the class. -/
def domainChar (c : Char) : Bool := c.isAlphanum || c == '-'

/-- The `validator` library's local-part check: a part whose first
character is a quote has its first and last characters stripped
(`user.slice(1, user.length - 1)`) and the rest checked as quoted
content; otherwise it is split on dots into atoms, each of which must
be nonempty and made of atom characters. -/
def isEmailLocal (user : List Char) : Bool :=
  match user with
  | [] => false
  | c :: rest =>
    if c = '"' then rest.dropLast.all quotedLocalChar
    else (splitOnChar '.' (c :: rest)).all fun atom =>
      !atom.isEmpty && atom.all emailAtomChar

/-- The `validator` library's `isFQDN` with default options
(`require_tld`): at least two dot-separated labels, each nonempty,
alphanumeric-or-hyphen with no edge hyphen, and a top-level domain of
at least two alphabetic characters (so `b.c` is rejected).
Restrictions: the 63-byte label cap, punycode TLDs, IP-literal domains
and the unicode ranges are not modelled. -/
def isFQDN (domain : List Char) : Bool :=
  let labels := splitOnChar '.' domain
  decide (labels.length ≥ 2) &&
  (labels.all fun lbl => !lbl.isEmpty && lbl.all domainChar &&
    !(lbl.head? == some '-') && !(lbl.getLast? == some '-')) &&
  (match labels.getLast? with
   | none => false
   | some tld => decide (tld.length ≥ 2) && tld.all Char.isAlpha)

/-- Model of the `validator` library's `isEmail` (default options): the
string must contain an `@`; the part after the last `@` must be an
FQDN and the part before it a valid local part (quoted local parts may
contain whitespace).  Restrictions, none of them exercised by the
claims: display names and the 254/64-byte length caps are not
modelled. -/
def isEmail (s : String) : Bool :=
  match splitAtLastChar '@' s.data with
  | none => false
  | some (user, domain) => isEmailLocal user && isFQDN domain

/-- Model of the `validator` library's `normalizeEmail` with default
options for a generic (non-gmail-special-cased) address: `all_lowercase`
is on by default, so the whole address is lowercased. -/
def normalizeEmail (s : String) : String := strLower s

/-- Mongoose setters of `userSchema.email` (`lowercase: true, trim:
true`); applied both when a value is stored and when a query filter is
cast against the schema. -/
def schemaEmail (s : String) : String := strLower (strTrim s)

/-- Mongoose setter of `userSchema.phoneNumber` (`trim: true`). -/
def schemaPhone (s : String) : String := strTrim s

/-- Model of `User.findOne({ email })`: the filter value is cast through
the schema's setters; with the unique sparse index there is at most one
match. -/
def findByEmail (db : DB) (email : String) : Option User :=
  db.users.find? fun u => u.email == some (schemaEmail email)

/-- Model of `User.findOne({ phoneNumber })`. -/
def findByPhone (db : DB) (phone : String) : Option User :=
  db.users.find? fun u => u.phoneNumber == some (schemaPhone phone)

/-! ## `POST /auth/register` (`src/backend/routes/files.js`) -/

/-- Result of the register handler: `400` invalid-format, `400`
already-registered, `201` created (the success body is
`{message, success}` — it carries no token), `500` on an internal
error. -/
inductive RegisterResult where
  | validationError
  | alreadyRegistered
  | created
deriving DecidableEq, Repr

/-- HTTP status the register handler responds with. -/
def registerStatus : RegisterResult → Nat
  | .validationError => 400
  | .alreadyRegistered => 400
  | .created => 201

/-- The document `new User({email, passwordHash, authProvider: 'email'})`
the register handler saves; `createdAt`/`lastLogin` come from the schema
defaults (`Date.now`). -/
def registerNewUser (core : Nat → String → Nat) (salt : Nat) (db : DB)
    (clock : Nat) (email pw : String) : User :=
  { id := db.nextId, email := some (schemaEmail (normalizeEmail email)),
    phoneNumber := none, passwordHash := some (bcryptHash core salt pw),
    authProvider := .email, createdAt := clock, lastLogin := clock }

/-- The `/auth/register` handler: validate, look the normalized email
up, reject a duplicate, otherwise `bcrypt.genSalt`/`bcrypt.hash` the
password (`salt` is the fresh salt that call draws) and save a new user
with `authProvider: 'email'`. -/
def register (core : Nat → String → Nat) (salt : Nat) (db : DB) (clock : Nat)
    (email pw : String) : RegisterResult × DB :=
  if !(isEmail email && pw.length ≥ 6) then
    (.validationError, db)
  else
    match findByEmail db (normalizeEmail email) with
    | some _ => (.alreadyRegistered, db)
    | none =>
      (.created, { users := registerNewUser core salt db clock email pw :: db.users,
                   nextId := db.nextId + 1 })

/-! ## `POST /auth/login` -/

/-- Result of the login handler.  The success body is `{token, user:
{id, email, authProvider}}`.  `hashFault` models the uncaught
`bcrypt.compare` throw when the stored document has no `passwordHash`
(caught by the outer try/catch as a 500). -/
inductive LoginResult where
  | validationError
  | userMissing
  | wrongPassword
  | hashFault
  | success (token : JwtToken) (userId : Nat) (email : Option String)
      (authProvider : AuthProvider)
deriving DecidableEq, Repr

/-- HTTP status the login handler responds with. -/
def loginStatus : LoginResult → Nat
  | .validationError => 400
  | .userMissing => 404
  | .wrongPassword => 401
  | .hashFault => 500
  | .success _ _ _ _ => 200

/-- Model of `user.lastLogin = new Date(); await user.save()`: the stored
collection with the document of the given id updated. -/
def touchLastLogin (users : List User) (id clock : Nat) : List User :=
  users.map fun v => if v.id == id then { v with lastLogin := clock } else v

/-- The `/auth/login` handler: validate, look the normalized email up
(404 if absent), `bcrypt.compare` the password (401 on mismatch), then
set `lastLogin = new Date()`, save, and sign
`{userId, email, authProvider: 'email'}` with `expiresIn: '7d'`. -/
def login (core : Nat → String → Nat) (secret : String) (db : DB) (clock : Nat)
    (email pw : String) : LoginResult × DB :=
  if !(isEmail email && !pw.isEmpty) then
    (.validationError, db)
  else
    match findByEmail db (normalizeEmail email) with
    | none => (.userMissing, db)
    | some user =>
      match user.passwordHash with
      | none => (.hashFault, db)
      | some digest =>
        if !bcryptCompare core pw digest then
          (.wrongPassword, db)
        else
          let payload : JwtPayload :=
            { userId := user.id, email := user.email, phoneNumber := none,
              authProvider := .email, iat := clock,
              exp := clock + sessionExpirySeconds }
          let token := jwtSign secret payload
          (.success token user.id user.email user.authProvider,
           { db with users := touchLastLogin db.users user.id clock })

/-! ## `POST /auth/phone-login` -/

/-- Result of the phone-login handler.  The success body is `{token,
user: {id, phoneNumber, authProvider}}`. -/
inductive PhoneLoginResult where
  | missingFields
  | success (token : JwtToken) (userId : Nat) (phoneNumber : Option String)
      (authProvider : AuthProvider)
deriving DecidableEq, Repr

/-- HTTP status the phone-login handler responds with. -/
def phoneLoginStatus : PhoneLoginResult → Nat
  | .missingFields => 400
  | .success _ _ _ _ => 200

/-- JavaScript truthiness of an optional request-body string field:
`undefined` and `''` are falsy. -/
def truthy : Option String → Bool
  | none => false
  | some s => !s.isEmpty

/-- The document `new User({phoneNumber, authProvider: 'phone'})` the
phone-login handler saves when no user exists for the phone number; no
password hash, `createdAt`/`lastLogin` from the schema defaults. -/
def phoneNewUser (db : DB) (clock : Nat) (pn : String) : User :=
  { id := db.nextId, email := none, phoneNumber := some (schemaPhone pn),
    passwordHash := none, authProvider := .phone,
    createdAt := clock, lastLogin := clock }

/-- The payload `{userId, phoneNumber, authProvider: 'phone'}` the
phone-login handler signs, extended with `iat`/`exp` by `jwt.sign`. -/
def phonePayload (user : User) (clock : Nat) : JwtPayload :=
  { userId := user.id, email := none, phoneNumber := user.phoneNumber,
    authProvider := .phone, iat := clock, exp := clock + sessionExpirySeconds }

/-- The `/auth/phone-login` handler: require both body fields truthy
(400 otherwise), then look the phone number up; if absent, save a new
user `{phoneNumber, authProvider: 'phone'}`; if present, set
`lastLogin` and save.  Either way sign `{userId, phoneNumber,
authProvider: 'phone'}` with `expiresIn: '7d'`.  The `idToken` is only
tested for presence: the handler never calls the provider to verify
it and never compares its phone claim with `phoneNumber`. -/
def phoneLogin (secret : String) (db : DB) (clock : Nat)
    (idToken phoneNumber : Option String) : PhoneLoginResult × DB :=
  if !(truthy idToken && truthy phoneNumber) then
    (.missingFields, db)
  else
    match phoneNumber with
    | none => (.missingFields, db)
    | some pn =>
      match findByPhone db pn with
      | none =>
        let user := phoneNewUser db clock pn
        (.success (jwtSign secret (phonePayload user clock)) user.id
            user.phoneNumber .phone,
         { users := user :: db.users, nextId := db.nextId + 1 })
      | some user =>
        (.success (jwtSign secret (phonePayload user clock)) user.id
            user.phoneNumber .phone,
         { db with users := touchLastLogin db.users user.id clock })

/-! ## Reachable states and the credential-field invariant -/

/-- States reachable from the empty store through the three auth
operations.  `core` is the bcrypt core and `secret` the server signing
secret; each step may pick any clock, salt and request body. -/
inductive Reachable (core : Nat → String → Nat) (secret : String) : DB → Prop where
  | init : Reachable core secret emptyDB
  | registerStep (salt clock : Nat) (email pw : String) {db : DB} :
      Reachable core secret db →
      Reachable core secret (register core salt db clock email pw).2
  | loginStep (clock : Nat) (email pw : String) {db : DB} :
      Reachable core secret db →
      Reachable core secret (login core secret db clock email pw).2
  | phoneLoginStep (clock : Nat) (idToken phoneNumber : Option String) {db : DB} :
      Reachable core secret db →
      Reachable core secret (phoneLogin secret db clock idToken phoneNumber).2

/-- The credential-field invariant on a single user document: the
`authProvider` tag determines which credential/contact fields are
populated. -/
def goodUser (u : User) : Prop :=
  (u.authProvider = .phone → u.passwordHash = none ∧ u.email = none) ∧
  (u.authProvider = .email →
    (∃ d, u.passwordHash = some d) ∧ (∃ e, u.email = some e) ∧ u.phoneNumber = none)

/-- The invariant over the whole store. -/
def goodDB (db : DB) : Prop := ∀ u ∈ db.users, goodUser u

theorem goodUser_touch (u : User) (clock : Nat) (h : goodUser u) :
    goodUser { u with lastLogin := clock } := h

theorem goodDB_touchLastLogin {db : DB} (id clock : Nat) (h : goodDB db) :
    goodDB { db with users := touchLastLogin db.users id clock } := by
  intro u hu
  simp only [touchLastLogin, List.mem_map] at hu
  obtain ⟨v, hv, rfl⟩ := hu
  split
  · exact goodUser_touch v clock (h v hv)
  · exact h v hv

theorem goodDB_register (core : Nat → String → Nat) (salt : Nat) {db : DB}
    (clock : Nat) (email pw : String) (h : goodDB db) :
    goodDB (register core salt db clock email pw).2 := by
  unfold register
  split
  · exact h
  · split
    · exact h
    · intro u hu
      rcases List.mem_cons.mp hu with rfl | hu
      · exact ⟨(fun hc => nomatch hc),
          (fun _ => ⟨⟨bcryptHash core salt pw, rfl⟩,
           ⟨schemaEmail (normalizeEmail email), rfl⟩, rfl⟩)⟩
      · exact h u hu

theorem goodDB_login (core : Nat → String → Nat) (secret : String) {db : DB}
    (clock : Nat) (email pw : String) (h : goodDB db) :
    goodDB (login core secret db clock email pw).2 := by
  unfold login
  split
  · exact h
  · split
    · exact h
    · split
      · exact h
      · split
        · exact h
        · exact goodDB_touchLastLogin _ clock h

theorem goodDB_phoneLogin (secret : String) {db : DB} (clock : Nat)
    (idToken phoneNumber : Option String) (h : goodDB db) :
    goodDB (phoneLogin secret db clock idToken phoneNumber).2 := by
  unfold phoneLogin
  split
  · exact h
  · split
    · exact h
    · split
      · intro u hu
        rcases List.mem_cons.mp hu with rfl | hu
        · exact ⟨(fun _ => ⟨rfl, rfl⟩), (fun hc => nomatch hc)⟩
        · exact h u hu
      · exact goodDB_touchLastLogin _ clock h

/-- Every reachable store satisfies the credential-field invariant. -/
theorem reachable_goodDB {core : Nat → String → Nat} {secret : String} {db : DB}
    (h : Reachable core secret db) : goodDB db := by
  induction h with
  | init => intro u hu; cases hu
  | registerStep salt clock email pw _ ih => exact goodDB_register _ _ _ _ _ ih
  | loginStep clock email pw _ ih => exact goodDB_login _ _ _ _ _ ih
  | phoneLoginStep clock idToken phoneNumber _ ih =>
      exact goodDB_phoneLogin _ _ _ _ ih

/-- A user's identity-determining fields survive into a later collection
(only `lastLogin` may differ). -/
def preservedIn (u : User) (users : List User) : Prop :=
  ∃ v ∈ users, v.id = u.id ∧ v.authProvider = u.authProvider ∧
    v.passwordHash = u.passwordHash ∧ v.email = u.email ∧
    v.phoneNumber = u.phoneNumber

theorem preservedIn_self {u : User} {users : List User} (hu : u ∈ users) :
    preservedIn u users :=
  ⟨u, hu, rfl, rfl, rfl, rfl, rfl⟩

theorem preservedIn_touchLastLogin {u : User} {users : List User}
    (hu : u ∈ users) (id clock : Nat) :
    preservedIn u (touchLastLogin users id clock) := by
  refine ⟨(fun v => if v.id == id then { v with lastLogin := clock } else v) u,
    List.mem_map_of_mem _ hu, ?_⟩
  dsimp only
  split <;> exact ⟨rfl, rfl, rfl, rfl, rfl⟩

theorem register_preserves (core : Nat → String → Nat) (salt : Nat) (db : DB)
    (clock : Nat) (email pw : String) :
    ∀ u ∈ db.users, preservedIn u (register core salt db clock email pw).2.users := by
  unfold register
  split
  · exact fun u hu => preservedIn_self hu
  · split
    · exact fun u hu => preservedIn_self hu
    · exact fun u hu => preservedIn_self (List.mem_cons_of_mem _ hu)

theorem login_preserves (core : Nat → String → Nat) (secret : String) (db : DB)
    (clock : Nat) (email pw : String) :
    ∀ u ∈ db.users, preservedIn u (login core secret db clock email pw).2.users := by
  unfold login
  split
  · exact fun u hu => preservedIn_self hu
  · split
    · exact fun u hu => preservedIn_self hu
    · split
      · exact fun u hu => preservedIn_self hu
      · split
        · exact fun u hu => preservedIn_self hu
        · exact fun u hu => preservedIn_touchLastLogin hu _ clock

theorem phoneLogin_preserves (secret : String) (db : DB) (clock : Nat)
    (idToken phoneNumber : Option String) :
    ∀ u ∈ db.users,
      preservedIn u (phoneLogin secret db clock idToken phoneNumber).2.users := by
  unfold phoneLogin
  split
  · exact fun u hu => preservedIn_self hu
  · split
    · exact fun u hu => preservedIn_self hu
    · split
      · exact fun u hu => preservedIn_self (List.mem_cons_of_mem _ hu)
      · exact fun u hu => preservedIn_touchLastLogin hu _ clock

/-! ## Claim theorems -/

/-- C1: the `verifyToken` middleware tries the bearer credential first as
a self-issued JWT signed with the server secret (accepting with the
token's embedded claims as principal); only if that fails does it try it
as an external-provider assertion (accepting with a synthesized
`{userId, phoneNumber, authProvider: 'phone'}` principal, the path-1
failure being swallowed); only when both paths fail is the request
rejected, with a generic 401. -/
theorem verifyToken_two_path_fallback (secret : String) (clock : Nat)
    (cred : Credential) :
    (∀ p, jwtVerifyCred secret clock cred = some p →
        verifyToken secret clock (some ⟨true, cred⟩) =
          .proceed (payloadPrincipal p)) ∧
    (jwtVerifyCred secret clock cred = none →
      ∀ fb, firebaseVerifyCred cred = some fb →
        verifyToken secret clock (some ⟨true, cred⟩) =
          .proceed ⟨fb.uid, none, fb.phone_number, .phone, none, none⟩) ∧
    (jwtVerifyCred secret clock cred = none →
      firebaseVerifyCred cred = none →
        verifyToken secret clock (some ⟨true, cred⟩) =
          .reject 401 "Invalid token") := by
  refine ⟨?_, ?_, ?_⟩
  · intro p hp
    simp [verifyToken, hp]
  · intro h1 fb h2
    simp [verifyToken, h1, h2]
  · intro h1 h2
    simp [verifyToken, h1, h2]

/-- Witness for C1: all three paths exercised on concrete credentials. -/
theorem verifyToken_two_path_fallback_witness :
    verifyToken "s" 0 (some ⟨true,
        .session (jwtSign "s" ⟨1, some "a@b.cd", none, .email, 0, 604800⟩)⟩) =
      .proceed (payloadPrincipal ⟨1, some "a@b.cd", none, .email, 0, 604800⟩) ∧
    verifyToken "s" 0 (some ⟨true, .assertion ⟨7, some "+15550001111", true⟩⟩) =
      .proceed ⟨7, none, some "+15550001111", .phone, none, none⟩ ∧
    verifyToken "s" 0 (some ⟨true, .malformed "zzz"⟩) =
      .reject 401 "Invalid token" :=
  ⟨(verifyToken_two_path_fallback "s" 0
      (.session (jwtSign "s" ⟨1, some "a@b.cd", none, .email, 0, 604800⟩))).1
      ⟨1, some "a@b.cd", none, .email, 0, 604800⟩ (by decide),
   (verifyToken_two_path_fallback "s" 0
      (.assertion ⟨7, some "+15550001111", true⟩)).2.1 (by decide)
      ⟨7, some "+15550001111", true⟩ (by decide),
   (verifyToken_two_path_fallback "s" 0 (.malformed "zzz")).2.2
      (by decide) (by decide)⟩

/-- C2 (code bug): the phone-login handler accepts an arbitrary,
unverifiable `idToken` — it never checks the assertion's authenticity
nor its phone claim, and absence of provider credentials produces no
`ServiceUnavailable`: on an empty store a garbage assertion yields a 200
with a freshly signed session token for the claimed phone number. -/
theorem phoneLogin_accepts_unverified_assertion :
    (phoneLogin "your-secret-key-change-in-production" emptyDB 1000
        (some "garbage-unverifiable") (some "+15550001111")).1 =
      .success (jwtSign "your-secret-key-change-in-production"
          (phonePayload (phoneNewUser emptyDB 1000 "+15550001111") 1000))
        0 (some "+15550001111") .phone ∧
    phoneLoginStatus (phoneLogin "your-secret-key-change-in-production" emptyDB
        1000 (some "garbage-unverifiable") (some "+15550001111")).1 = 200 := by
  constructor
  · decide
  · decide

/-- A concrete bcrypt core used to instantiate witnesses. -/
def demoCore (salt : Nat) (pw : String) : Nat := salt + pw.length

/-- C3: phone login is create-or-update.  With both fields present, if no
identity exists for the phone number exactly one new identity is created
(`authProvider = phone`, no password hash) and a token for it is
returned; if one exists, no identity is created, the same id is reused,
its `lastLogin` is set to now, and a token is returned. -/
theorem phoneLogin_create_or_update (secret : String) (db : DB) (clock : Nat)
    (idToken : Option String) (pn : String)
    (hTok : truthy idToken = true) (hPn : truthy (some pn) = true) :
    (findByPhone db pn = none →
      (phoneLogin secret db clock idToken (some pn)).2.users
          = phoneNewUser db clock pn :: db.users ∧
      (phoneNewUser db clock pn).authProvider = .phone ∧
      (phoneNewUser db clock pn).passwordHash = none ∧
      (phoneLogin secret db clock idToken (some pn)).1 =
        .success (jwtSign secret (phonePayload (phoneNewUser db clock pn) clock))
          (phoneNewUser db clock pn).id (phoneNewUser db clock pn).phoneNumber
          .phone) ∧
    (∀ u, findByPhone db pn = some u →
      (phoneLogin secret db clock idToken (some pn)).2.users
          = touchLastLogin db.users u.id clock ∧
      { u with lastLogin := clock } ∈
          (phoneLogin secret db clock idToken (some pn)).2.users ∧
      (phoneLogin secret db clock idToken (some pn)).2.users.length
          = db.users.length ∧
      (phoneLogin secret db clock idToken (some pn)).1 =
        .success (jwtSign secret (phonePayload u clock)) u.id u.phoneNumber
          .phone) := by
  constructor
  · intro hnone
    refine ⟨?_, rfl, rfl, ?_⟩ <;> simp [phoneLogin, hTok, hPn, hnone]
  · intro u hsome
    have hmem : u ∈ db.users := List.mem_of_find?_eq_some hsome
    have husers : (phoneLogin secret db clock idToken (some pn)).2.users
        = touchLastLogin db.users u.id clock := by
      simp [phoneLogin, hTok, hPn, hsome]
    refine ⟨husers, ?_, ?_, ?_⟩
    · rw [husers]
      unfold touchLastLogin
      exact List.mem_map.mpr ⟨u, hmem, by simp⟩
    · rw [husers]
      simp [touchLastLogin]
    · simp [phoneLogin, hTok, hPn, hsome]

/-- Witness for C3: first call on an empty store creates the identity;
the second call with the same phone number reuses id 0 and issues a
fresh token. -/
theorem phoneLogin_create_or_update_witness :
    (phoneLogin "s" emptyDB 5 (some "t") (some "+15550001111")).2.users
        = phoneNewUser emptyDB 5 "+15550001111" :: emptyDB.users ∧
    (phoneLogin "s" (phoneLogin "s" emptyDB 5 (some "t") (some "+15550001111")).2
        9 (some "t2") (some "+15550001111")).1 =
      .success (jwtSign "s" (phonePayload (phoneNewUser emptyDB 5 "+15550001111") 9))
        (phoneNewUser emptyDB 5 "+15550001111").id
        (phoneNewUser emptyDB 5 "+15550001111").phoneNumber .phone :=
  ⟨((phoneLogin_create_or_update "s" emptyDB 5 (some "t") "+15550001111"
      (by decide) (by decide)).1 (by decide)).1,
   ((phoneLogin_create_or_update "s"
      (phoneLogin "s" emptyDB 5 (some "t") (some "+15550001111")).2 9 (some "t2")
      "+15550001111" (by decide) (by decide)).2
      (phoneNewUser emptyDB 5 "+15550001111") (by decide)).2.2.2⟩

/-- C4: login answers 404 when no identity exists for the email and 401
when the password does not match the stored hash; in both cases the
store is returned unchanged (no `lastLogin` update) and no token is
issued. -/
theorem login_unknown_email_and_wrong_password (core : Nat → String → Nat)
    (secret : String) (db : DB) (clock : Nat) (email pw : String)
    (hmail : isEmail email = true) (hpw : pw.isEmpty = false) :
    (findByEmail db (normalizeEmail email) = none →
      login core secret db clock email pw = (.userMissing, db) ∧
      loginStatus .userMissing = 404) ∧
    (∀ u d, findByEmail db (normalizeEmail email) = some u →
      u.passwordHash = some d → bcryptCompare core pw d = false →
      login core secret db clock email pw = (.wrongPassword, db) ∧
      loginStatus .wrongPassword = 401) := by
  constructor
  · intro hnone
    exact ⟨by simp [login, hmail, hpw, hnone], rfl⟩
  · intro u d hu hd hcmp
    exact ⟨by simp [login, hmail, hpw, hu, hd, hcmp], rfl⟩

/-- Witness for C4: a store holding one registered user answers 404 for
an unknown email and 401 for the right email with a wrong password,
leaving the store untouched. -/
theorem login_unknown_email_and_wrong_password_witness :
    (login demoCore "s" (register demoCore 3 emptyDB 0 "a@b.cd" "secret1").2
        10 "x@y.zw" "whatever" =
      (.userMissing, (register demoCore 3 emptyDB 0 "a@b.cd" "secret1").2) ∧
     loginStatus .userMissing = 404) ∧
    (login demoCore "s" (register demoCore 3 emptyDB 0 "a@b.cd" "secret1").2
        10 "a@b.cd" "wrongpassword" =
      (.wrongPassword, (register demoCore 3 emptyDB 0 "a@b.cd" "secret1").2) ∧
     loginStatus .wrongPassword = 401) :=
  ⟨(login_unknown_email_and_wrong_password demoCore "s"
      (register demoCore 3 emptyDB 0 "a@b.cd" "secret1").2 10 "x@y.zw" "whatever"
      (by decide) (by decide)).1 (by decide),
   (login_unknown_email_and_wrong_password demoCore "s"
      (register demoCore 3 emptyDB 0 "a@b.cd" "secret1").2 10 "a@b.cd"
      "wrongpassword" (by decide) (by decide)).2
      (registerNewUser demoCore 3 emptyDB 0 "a@b.cd" "secret1")
      (bcryptHash demoCore 3 "secret1") (by decide) (by decide) (by decide)⟩

/-- C5: registration rejects malformed emails or short passwords with a
400 before touching the store; a fresh valid registration creates
exactly one identity (hashed password, `authProvider = email`, no
token in the response type); a second registration with the same email
answers 400 Conflict and leaves the store unchanged. -/
theorem register_validates_and_is_unique (core : Nat → String → Nat)
    (salt salt2 : Nat) (db : DB) (clock clock2 : Nat) (email pw pw2 : String) :
    ((isEmail email = false ∨ pw.length < 6) →
      register core salt db clock email pw = (.validationError, db) ∧
      registerStatus .validationError = 400) ∧
    (isEmail email = true → 6 ≤ pw.length →
      findByEmail db (normalizeEmail email) = none →
      (register core salt db clock email pw).1 = .created ∧
      registerStatus .created = 201 ∧
      (register core salt db clock email pw).2.users
        = registerNewUser core salt db clock email pw :: db.users ∧
      (registerNewUser core salt db clock email pw).authProvider = .email ∧
      (registerNewUser core salt db clock email pw).passwordHash
        = some (bcryptHash core salt pw) ∧
      (6 ≤ pw2.length →
        register core salt2 (register core salt db clock email pw).2 clock2
            email pw2
          = (.alreadyRegistered, (register core salt db clock email pw).2) ∧
        registerStatus .alreadyRegistered = 400)) := by
  constructor
  · intro hbad
    have hguard : (isEmail email && decide (pw.length ≥ 6)) = false := by
      rcases hbad with h | h
      · simp [h]
      · simp [Nat.not_le.mpr h]
    exact ⟨by simp [register, hguard], rfl⟩
  · intro hmail hlen hnone
    have hdb : (register core salt db clock email pw).2
        = { users := registerNewUser core salt db clock email pw :: db.users,
            nextId := db.nextId + 1 } := by
      simp [register, hmail, hlen, hnone]
    refine ⟨by simp [register, hmail, hlen, hnone], rfl, by rw [hdb], rfl, rfl, ?_⟩
    intro hlen2
    refine ⟨?_, rfl⟩
    rw [hdb]
    simp [register, hmail, hlen2, findByEmail, registerNewUser]

/-- Witness for C5: short password rejected; fresh registration of
`a@b.cd` creates the identity; repeating it conflicts without a second
record. -/
theorem register_validates_and_is_unique_witness :
    (register demoCore 3 emptyDB 0 "a@b.cd" "short" =
        (.validationError, emptyDB) ∧
     registerStatus .validationError = 400) ∧
    ((register demoCore 3 emptyDB 0 "a@b.cd" "secret1").1 = .created ∧
     (register demoCore 3 emptyDB 0 "a@b.cd" "secret1").2.users
        = registerNewUser demoCore 3 emptyDB 0 "a@b.cd" "secret1" :: emptyDB.users) ∧
    (register demoCore 5 (register demoCore 3 emptyDB 0 "a@b.cd" "secret1").2 7
        "a@b.cd" "secret2"
      = (.alreadyRegistered, (register demoCore 3 emptyDB 0 "a@b.cd" "secret1").2)) :=
  ⟨(register_validates_and_is_unique demoCore 3 5 emptyDB 0 7 "a@b.cd" "short"
      "x").1 (Or.inr (by decide)),
   ⟨((register_validates_and_is_unique demoCore 3 5 emptyDB 0 7 "a@b.cd" "secret1"
      "x").2 (by decide) (by decide) (by decide)).1,
    ((register_validates_and_is_unique demoCore 3 5 emptyDB 0 7 "a@b.cd" "secret1"
      "x").2 (by decide) (by decide) (by decide)).2.2.1⟩,
   (((register_validates_and_is_unique demoCore 3 5 emptyDB 0 7 "a@b.cd" "secret1"
      "secret2").2 (by decide) (by decide) (by decide)).2.2.2.2.2 (by decide)).1⟩

/-- C7 counterexample: a token issued at time 0 expires at exactly
`sessionExpirySeconds`; presented at that very boundary instant — which
the claim says is still acceptable — the Session Verifier already
rejects it with 401, because `jsonwebtoken` expires a token once
`clockTimestamp >= exp`. -/
theorem session_token_rejected_at_expiry_instant :
    verifyToken "s" sessionExpirySeconds
      (some ⟨true, .session (jwtSign "s"
        ⟨1, some "a@b.cd", none, .email, 0, sessionExpirySeconds⟩)⟩)
      = .reject 401 "Invalid token" := by decide

/-- C7 (amended): a session token signed with the server secret whose
expiry is 7 days after issuance is accepted at every instant strictly
before the expiry boundary and rejected with 401 at the boundary and at
every later instant (in particular 1 second past expiry). -/
theorem session_token_expiry_semantics (secret : String) (clock : Nat)
    (p : JwtPayload) (hexp : p.exp = p.iat + sessionExpirySeconds) :
    (clock < p.iat + sessionExpirySeconds →
      verifyToken secret clock (some ⟨true, .session (jwtSign secret p)⟩)
        = .proceed (payloadPrincipal p)) ∧
    (p.iat + sessionExpirySeconds ≤ clock →
      verifyToken secret clock (some ⟨true, .session (jwtSign secret p)⟩)
        = .reject 401 "Invalid token") := by
  constructor
  · intro hlt
    simp [verifyToken, jwtVerifyCred, jwtVerify, jwtSign, hexp, hlt]
  · intro hge
    simp [verifyToken, jwtVerifyCred, jwtVerify, jwtSign, firebaseVerifyCred,
      hexp, Nat.not_lt.mpr hge]

/-- Witness for C7: the same token is accepted 1 second before its
boundary and rejected 1 second past it. -/
theorem session_token_expiry_semantics_witness :
    verifyToken "s" 604799 (some ⟨true, .session (jwtSign "s"
        ⟨1, none, none, .email, 0, sessionExpirySeconds⟩)⟩)
      = .proceed (payloadPrincipal ⟨1, none, none, .email, 0, sessionExpirySeconds⟩) ∧
    verifyToken "s" 604801 (some ⟨true, .session (jwtSign "s"
        ⟨1, none, none, .email, 0, sessionExpirySeconds⟩)⟩)
      = .reject 401 "Invalid token" :=
  ⟨(session_token_expiry_semantics "s" 604799
      ⟨1, none, none, .email, 0, sessionExpirySeconds⟩ (by decide)).1 (by decide),
   (session_token_expiry_semantics "s" 604801
      ⟨1, none, none, .email, 0, sessionExpirySeconds⟩ (by decide)).2 (by decide)⟩

/-- C6: a successful login issues a token signed with the server secret
whose payload embeds exactly the found identity's id, its email and its
auth method (which the credential-field invariant forces to be `email`),
with expiry 7 days after issuance. -/
theorem login_token_embeds_identity (core : Nat → String → Nat)
    (secret : String) (db : DB) (clock : Nat) (email pw : String)
    (tok : JwtToken) (uid : Nat) (em : Option String) (pr : AuthProvider)
    (db' : DB) (u : User)
    (hreach : Reachable core secret db)
    (hfind : findByEmail db (normalizeEmail email) = some u)
    (hsucc : login core secret db clock email pw
        = (.success tok uid em pr, db')) :
    tok = jwtSign secret ⟨u.id, u.email, none, u.authProvider, clock,
        clock + sessionExpirySeconds⟩ ∧
    uid = u.id ∧ em = u.email ∧ pr = u.authProvider ∧
    u.authProvider = .email ∧
    tok.payload.userId = u.id ∧ tok.signedWith = secret ∧
    tok.payload.exp = tok.payload.iat + sessionExpirySeconds := by
  have hmem : u ∈ db.users := List.mem_of_find?_eq_some hfind
  have hgood := reachable_goodDB hreach u hmem
  have hemail : u.email = some (schemaEmail (normalizeEmail email)) := by
    have hpred := List.find?_some hfind
    simpa using hpred
  have hprov : u.authProvider = .email := by
    cases hp : u.authProvider
    · rfl
    · exfalso
      have hnone := (hgood.1 hp).2
      rw [hnone] at hemail
      cases hemail
  unfold login at hsucc
  split at hsucc
  · simp at hsucc
  · rw [hfind] at hsucc
    split at hsucc
    · rename_i heq
      exact Option.noConfusion heq
    · rename_i user heq
      obtain rfl : u = user := by injection heq
      split at hsucc
      · simp at hsucc
      · split at hsucc
        · simp at hsucc
        · simp only [Prod.mk.injEq, LoginResult.success.injEq] at hsucc
          obtain ⟨⟨ht, hu2, he, hp⟩, -⟩ := hsucc
          subst ht
          subst hu2
          subst he
          subst hp
          rw [hprov]
          exact ⟨rfl, rfl, rfl, rfl, rfl, rfl, rfl, rfl⟩

/-- Witness for C6: after registering `a@b.cd`, logging in with the
correct password yields a token embedding the stored identity's id 0,
its email and auth method, expiring 7 days after the login instant. -/
theorem login_token_embeds_identity_witness :
    jwtSign "s" ⟨0, some "a@b.cd", none, .email, 10, 10 + sessionExpirySeconds⟩
      = jwtSign "s" ⟨(registerNewUser demoCore 3 emptyDB 0 "a@b.cd" "secret1").id,
          (registerNewUser demoCore 3 emptyDB 0 "a@b.cd" "secret1").email, none,
          (registerNewUser demoCore 3 emptyDB 0 "a@b.cd" "secret1").authProvider,
          10, 10 + sessionExpirySeconds⟩ ∧
    (0 : Nat) = (registerNewUser demoCore 3 emptyDB 0 "a@b.cd" "secret1").id ∧
    some "a@b.cd" = (registerNewUser demoCore 3 emptyDB 0 "a@b.cd" "secret1").email ∧
    AuthProvider.email
      = (registerNewUser demoCore 3 emptyDB 0 "a@b.cd" "secret1").authProvider ∧
    (registerNewUser demoCore 3 emptyDB 0 "a@b.cd" "secret1").authProvider
      = .email ∧
    (jwtSign "s" ⟨0, some "a@b.cd", none, .email, 10,
        10 + sessionExpirySeconds⟩).payload.userId
      = (registerNewUser demoCore 3 emptyDB 0 "a@b.cd" "secret1").id ∧
    (jwtSign "s" ⟨0, some "a@b.cd", none, .email, 10,
        10 + sessionExpirySeconds⟩).signedWith = "s" ∧
    (jwtSign "s" ⟨0, some "a@b.cd", none, .email, 10,
        10 + sessionExpirySeconds⟩).payload.exp
      = (jwtSign "s" ⟨0, some "a@b.cd", none, .email, 10,
          10 + sessionExpirySeconds⟩).payload.iat + sessionExpirySeconds :=
  login_token_embeds_identity demoCore "s"
    (register demoCore 3 emptyDB 0 "a@b.cd" "secret1").2 10 "a@b.cd" "secret1"
    (jwtSign "s" ⟨0, some "a@b.cd", none, .email, 10, 10 + sessionExpirySeconds⟩)
    0 (some "a@b.cd") .email
    (login demoCore "s" (register demoCore 3 emptyDB 0 "a@b.cd" "secret1").2 10
      "a@b.cd" "secret1").2
    (registerNewUser demoCore 3 emptyDB 0 "a@b.cd" "secret1")
    (Reachable.registerStep 3 0 "a@b.cd" "secret1" Reachable.init)
    (by decide) (by decide)

/-- C8: in every reachable store a phone identity carries no password
hash and an email identity always carries one, and each of the three
operations preserves every existing identity's id, auth method and
credential fields (only `lastLogin` may change). -/
theorem authProvider_determines_credential_fields (core : Nat → String → Nat)
    (secret : String) (db : DB) (hreach : Reachable core secret db) :
    (∀ u ∈ db.users,
      (u.authProvider = .phone → u.passwordHash = none) ∧
      (u.authProvider = .email → ∃ d, u.passwordHash = some d)) ∧
    (∀ salt clock email pw, ∀ u ∈ db.users,
      preservedIn u (register core salt db clock email pw).2.users) ∧
    (∀ clock email pw, ∀ u ∈ db.users,
      preservedIn u (login core secret db clock email pw).2.users) ∧
    (∀ clock idToken phoneNumber, ∀ u ∈ db.users,
      preservedIn u (phoneLogin secret db clock idToken phoneNumber).2.users) := by
  refine ⟨?_, ?_, ?_, ?_⟩
  · intro u hu
    have h := reachable_goodDB hreach u hu
    exact ⟨fun hp => (h.1 hp).1, fun he => (h.2 he).1⟩
  · intro salt clock email pw u hu
    exact register_preserves core salt db clock email pw u hu
  · intro clock email pw u hu
    exact login_preserves core secret db clock email pw u hu
  · intro clock idToken phoneNumber u hu
    exact phoneLogin_preserves secret db clock idToken phoneNumber u hu

/-- Witness for C8: in the store reached by one phone login the created
phone identity carries no password hash, and a subsequent registration
preserves it. -/
theorem authProvider_determines_credential_fields_witness :
    (phoneNewUser emptyDB 5 "+15550001111").passwordHash = none ∧
    preservedIn (phoneNewUser emptyDB 5 "+15550001111")
      (register demoCore 3
        (phoneLogin "s" emptyDB 5 (some "t") (some "+15550001111")).2 0
        "a@b.cd" "secret1").2.users :=
  ⟨((authProvider_determines_credential_fields demoCore "s"
      (phoneLogin "s" emptyDB 5 (some "t") (some "+15550001111")).2
      (Reachable.phoneLoginStep 5 (some "t") (some "+15550001111")
        Reachable.init)).1
      (phoneNewUser emptyDB 5 "+15550001111") (by decide)).1 rfl,
   (authProvider_determines_credential_fields demoCore "s"
      (phoneLogin "s" emptyDB 5 (some "t") (some "+15550001111")).2
      (Reachable.phoneLoginStep 5 (some "t") (some "+15550001111")
        Reachable.init)).2.1
      3 0 "a@b.cd" "secret1" (phoneNewUser emptyDB 5 "+15550001111") (by decide)⟩

/-- C9: bcrypt round-trips — comparing a plaintext against its own fresh
digest succeeds for every core, salt and plaintext of length ≥ 6;
comparing against another plaintext's digest fails whenever the core
does not collide on the two plaintexts at that salt ("overwhelming
probability" for the real core); and digests drawn with different salts
differ even for the same plaintext (randomization). -/
theorem bcrypt_roundtrip (core : Nat → String → Nat) (salt : Nat) (p : String)
    (hlen : 6 ≤ p.length) :
    bcryptCompare core p (bcryptHash core salt p) = true ∧
    (∀ q, core salt q ≠ core salt p →
      bcryptCompare core p (bcryptHash core salt q) = false) ∧
    (∀ s1 s2 : Nat, s1 ≠ s2 → bcryptHash core s1 p ≠ bcryptHash core s2 p) := by
  refine ⟨?_, ?_, ?_⟩
  · simp [bcryptCompare, bcryptHash]
  · intro q hne
    simp only [bcryptCompare, bcryptHash]
    exact beq_eq_false_iff_ne.mpr fun h => hne h.symm
  · intro s1 s2 hne h
    exact hne (congrArg Prod.fst h)

/-- Witness for C9: a concrete core round-trips on `abcdef`, rejects a
non-colliding other plaintext, and distinct salts give distinct
digests. -/
theorem bcrypt_roundtrip_witness :
    bcryptCompare demoCore "abcdef" (bcryptHash demoCore 3 "abcdef") = true ∧
    bcryptCompare demoCore "abcdef" (bcryptHash demoCore 3 "zzzzzzzz") = false ∧
    bcryptHash demoCore 1 "abcdef" ≠ bcryptHash demoCore 2 "abcdef" :=
  ⟨(bcrypt_roundtrip demoCore 3 "abcdef" (by decide)).1,
   (bcrypt_roundtrip demoCore 3 "abcdef" (by decide)).2.1 "zzzzzzzz" (by decide),
   (bcrypt_roundtrip demoCore 3 "abcdef" (by decide)).2.2 1 2 (by decide)⟩

/-- Registration against a store already holding the normalized email
answers Conflict and leaves the store unchanged. -/
theorem register_conflict (core : Nat → String → Nat) (salt : Nat) (db0 : DB)
    (clock : Nat) (em p : String) (u : User)
    (hm : isEmail em = true) (hl : 6 ≤ p.length)
    (hf : findByEmail db0 (normalizeEmail em) = some u) :
    register core salt db0 clock em p = (.alreadyRegistered, db0) := by
  simp [register, hm, hl, hf]

/-- Every non-separator element of the input (and every element of the
accumulator) lands inside some chunk of the split. -/
theorem mem_chunk_of_splitOnCharAux (sep : Char) (l : List Char) :
    ∀ (acc : List Char) (x : Char),
      (x ∈ l ∧ x ≠ sep) ∨ x ∈ acc →
      ∃ chunk ∈ splitOnCharAux sep l acc, x ∈ chunk := by
  induction l with
  | nil =>
    intro acc x h
    rcases h with ⟨hx, _⟩ | hx
    · cases hx
    · exact ⟨acc.reverse, List.mem_singleton_self _, List.mem_reverse.mpr hx⟩
  | cons y ys ih =>
    intro acc x h
    simp only [splitOnCharAux]
    by_cases hy : y = sep
    · rw [if_pos hy]
      rcases h with ⟨hx, hne⟩ | hx
      · rcases List.mem_cons.mp hx with rfl | hx2
        · exact absurd hy hne
        · obtain ⟨chunk, hc, hxc⟩ := ih [] x (Or.inl ⟨hx2, hne⟩)
          exact ⟨chunk, List.mem_cons_of_mem _ hc, hxc⟩
      · exact ⟨acc.reverse, List.mem_cons_self _ _, List.mem_reverse.mpr hx⟩
    · rw [if_neg hy]
      rcases h with ⟨hx, hne⟩ | hx
      · rcases List.mem_cons.mp hx with rfl | hx2
        · exact ih (x :: acc) x (Or.inr (List.mem_cons_self _ _))
        · exact ih (y :: acc) x (Or.inl ⟨hx2, hne⟩)
      · exact ih (y :: acc) x (Or.inr (List.mem_cons_of_mem _ hx))

/-- Wrapper of the previous lemma for `splitOnChar`. -/
theorem mem_chunk_of_splitOnChar {sep x : Char} {l : List Char}
    (hx : x ∈ l) (hne : x ≠ sep) :
    ∃ chunk ∈ splitOnChar sep l, x ∈ chunk :=
  mem_chunk_of_splitOnCharAux sep l [] x (Or.inl ⟨hx, hne⟩)

/-- Decomposition of a successful `splitAtLastChar`: the input is the
local part, the separator, then the tail. -/
theorem splitAtLastChar_eq (sep : Char) (l : List Char) :
    ∀ u d, splitAtLastChar sep l = some (u, d) → l = u ++ sep :: d := by
  induction l with
  | nil => intro u d h; cases h
  | cons x xs ih =>
    intro u d h
    simp only [splitAtLastChar] at h
    cases hs : splitAtLastChar sep xs with
    | some ab =>
      obtain ⟨a, b⟩ := ab
      rw [hs] at h
      rw [Option.some.injEq, Prod.mk.injEq] at h
      obtain ⟨h1, h2⟩ := h
      subst h1
      subst h2
      rw [ih a b hs]
      rfl
    | none =>
      rw [hs] at h
      by_cases hx : x = sep
      · rw [if_pos hx] at h
        rw [Option.some.injEq, Prod.mk.injEq] at h
        obtain ⟨h1, h2⟩ := h
        subst h1
        subst h2
        simp [hx]
      · rw [if_neg hx] at h
        exact Option.noConfusion h

/-- A whitespace character is not an `@`, a quote or a dot, and belongs
neither to the unquoted-atom class nor to the domain-label class. -/
theorem whitespace_char_facts {c : Char} (h : c.isWhitespace = true) :
    c ≠ '@' ∧ c ≠ '"' ∧ c ≠ '.' ∧ emailAtomChar c = false ∧
      domainChar c = false := by
  have h4 : ((c = ' ' ∨ c = '\t') ∨ c = '\r') ∨ c = '\n' := by
    simpa [Char.isWhitespace] using h
  rcases h4 with ((rfl | rfl) | rfl) | rfl <;>
    exact ⟨by decide, by decide, by decide, by decide, by decide⟩

/-- An email candidate whose first or last character is whitespace fails
the `isEmail` validator: a leading whitespace character sits at the
head of an unquoted local-part atom (it is not a quote, so the quoted
branch is not taken) and a trailing one sits inside a domain label, and
both character classes exclude whitespace.  Quoted local parts may
contain interior whitespace, but that never places whitespace at the
very start or end of the candidate. -/
theorem isEmail_false_of_edge_whitespace {s : String} {c : Char}
    (hedge : s.data.head? = some c ∨ s.data.getLast? = some c)
    (hws : c.isWhitespace = true) : isEmail s = false := by
  obtain ⟨hat, hq, hdot, hatom, hdom⟩ := whitespace_char_facts hws
  unfold isEmail
  cases hsplit : splitAtLastChar '@' s.data with
  | none => rfl
  | some ud =>
    obtain ⟨user, domain⟩ := ud
    have heq := splitAtLastChar_eq '@' s.data user domain hsplit
    rcases hedge with hhead | hlast
    · cases user with
      | nil =>
        rw [heq] at hhead
        simp only [List.nil_append, List.head?_cons, Option.some.injEq] at hhead
        exact absurd hhead.symm hat
      | cons u0 urest =>
        rw [heq] at hhead
        simp only [List.cons_append, List.head?_cons, Option.some.injEq] at hhead
        subst hhead
        have hlocal : isEmailLocal (u0 :: urest) = false := by
          show (if u0 = '"' then urest.dropLast.all quotedLocalChar
            else (splitOnChar '.' (u0 :: urest)).all fun atom =>
              !atom.isEmpty && atom.all emailAtomChar) = false
          rw [if_neg hq]
          obtain ⟨atom, hmem, hc⟩ :=
            mem_chunk_of_splitOnChar (List.mem_cons_self u0 urest) hdot
          rw [List.all_eq_false]
          refine ⟨atom, hmem, ?_⟩
          intro hcontra
          rw [Bool.and_eq_true] at hcontra
          have h3 := List.all_eq_true.mp hcontra.2 u0 hc
          rw [hatom] at h3
          exact Bool.noConfusion h3
        simp [hlocal]
    · rw [heq] at hlast
      rw [List.getLast?_append_of_ne_nil user (by simp)] at hlast
      cases domain with
      | nil =>
        simp only [List.getLast?_singleton, Option.some.injEq] at hlast
        exact absurd hlast.symm hat
      | cons d0 drest =>
        rw [show ('@' :: d0 :: drest) = ['@'] ++ (d0 :: drest) from rfl,
          List.getLast?_append_of_ne_nil ['@'] (by simp)] at hlast
        have hcm : c ∈ d0 :: drest := List.mem_of_mem_getLast? hlast
        have hfq : isFQDN (d0 :: drest) = false := by
          unfold isFQDN
          obtain ⟨lbl, hlblMem, hclbl⟩ := mem_chunk_of_splitOnChar hcm hdot
          have hall : ((splitOnChar '.' (d0 :: drest)).all fun lbl =>
              !lbl.isEmpty && lbl.all domainChar &&
                !(lbl.head? == some '-') && !(lbl.getLast? == some '-'))
              = false := by
            rw [List.all_eq_false]
            refine ⟨lbl, hlblMem, ?_⟩
            intro hcontra
            rw [Bool.and_eq_true, Bool.and_eq_true, Bool.and_eq_true] at hcontra
            have h3 := List.all_eq_true.mp hcontra.1.1.2 c hclbl
            rw [hdom] at h3
            exact Bool.noConfusion h3
          simp [hall]
        simp [hfq]

/-- C10 counterexample: register `alice@example.com`, then log in with
the same address surrounded by whitespace and the correct password: the
`isEmail` validator (which runs before any normalization) rejects it
with a 400 validation failure instead of authenticating against the
stored identity. -/
theorem login_whitespace_email_variant_fails :
    (login demoCore "s"
        (register demoCore 3 emptyDB 0 "alice@example.com" "secret1").2
        10 " alice@example.com " "secret1").1 = .validationError ∧
    loginStatus .validationError = 400 :=
  ⟨by decide, rfl⟩

/-- C10 (amended): email identity is case-insensitive — registration
followed by a login or a second registration under a letter-case
variant of the same address finds the same stored identity (token for
the same id; Conflict on re-registration) — but variants differing in
surrounding whitespace are not accepted: `isEmail` runs before any
normalization and fails on every candidate whose first or last
character is whitespace, so such a variant is rejected with a 400
validation failure and never reaches lookup. -/
theorem email_case_insensitive_identity (core : Nat → String → Nat)
    (secret : String) (salt salt2 : Nat) (db : DB) (clock clock2 clock3 : Nat)
    (e e2 pw pw2 : String)
    (hmail : isEmail e = true) (hlen : 6 ≤ pw.length)
    (hnone : findByEmail db (normalizeEmail e) = none)
    (hmail2 : isEmail e2 = true) (hcase : strLower e2 = strLower e)
    (hpw : pw.isEmpty = false) (hlen2 : 6 ≤ pw2.length) :
    (login core secret (register core salt db clock e pw).2 clock2 e2 pw).1
      = .success
          (jwtSign secret ⟨db.nextId, some (schemaEmail (normalizeEmail e)),
            none, .email, clock2, clock2 + sessionExpirySeconds⟩)
          db.nextId (some (schemaEmail (normalizeEmail e))) .email ∧
    register core salt2 (register core salt db clock e pw).2 clock3 e2 pw2
      = (.alreadyRegistered, (register core salt db clock e pw).2) ∧
    (∀ s pw3 (c : Char),
      (s.data.head? = some c ∨ s.data.getLast? = some c) →
      c.isWhitespace = true →
      (login core secret (register core salt db clock e pw).2 clock2 s pw3).1
        = .validationError) := by
  have hdb : (register core salt db clock e pw).2
      = { users := registerNewUser core salt db clock e pw :: db.users,
          nextId := db.nextId + 1 } := by
    simp [register, hmail, hlen, hnone]
  have hnorm : schemaEmail (normalizeEmail e2) = schemaEmail (normalizeEmail e) := by
    simp [schemaEmail, normalizeEmail, hcase]
  have hfind2 : findByEmail (register core salt db clock e pw).2
      (normalizeEmail e2) = some (registerNewUser core salt db clock e pw) := by
    rw [hdb]
    simp [findByEmail, registerNewUser, hnorm]
  refine ⟨?_, ?_, ?_⟩
  · simp [login, hmail2, hpw, hfind2, registerNewUser, bcryptCompare, bcryptHash]
  · exact register_conflict core salt2 _ clock3 e2 pw2 _ hmail2 hlen2 hfind2
  · intro s pw3 c hedge hws
    simp [login, isEmail_false_of_edge_whitespace hedge hws]

/-- Witness for C10: `Alice@Example.COM` registered, `ALICE@example.com`
logs into the same identity and re-registers into a Conflict, while an
address with a leading space is rejected by validation. -/
theorem email_case_insensitive_identity_witness :
    (login demoCore "s"
        (register demoCore 3 emptyDB 0 "Alice@Example.COM" "secret1").2 10
        "ALICE@example.com" "secret1").1
      = .success
          (jwtSign "s" ⟨emptyDB.nextId,
            some (schemaEmail (normalizeEmail "Alice@Example.COM")), none,
            .email, 10, 10 + sessionExpirySeconds⟩)
          emptyDB.nextId
          (some (schemaEmail (normalizeEmail "Alice@Example.COM"))) .email ∧
    register demoCore 5
        (register demoCore 3 emptyDB 0 "Alice@Example.COM" "secret1").2 20
        "ALICE@example.com" "secret2"
      = (.alreadyRegistered,
         (register demoCore 3 emptyDB 0 "Alice@Example.COM" "secret1").2) ∧
    (login demoCore "s"
        (register demoCore 3 emptyDB 0 "Alice@Example.COM" "secret1").2 10
        " x@y.zw" "secret1").1 = .validationError :=
  ⟨(email_case_insensitive_identity demoCore "s" 3 5 emptyDB 0 10 20
      "Alice@Example.COM" "ALICE@example.com" "secret1" "secret2" (by decide)
      (by decide) (by decide) (by decide) (by decide) (by decide) (by decide)).1,
   (email_case_insensitive_identity demoCore "s" 3 5 emptyDB 0 10 20
      "Alice@Example.COM" "ALICE@example.com" "secret1" "secret2" (by decide)
      (by decide) (by decide) (by decide) (by decide) (by decide) (by decide)).2.1,
   (email_case_insensitive_identity demoCore "s" 3 5 emptyDB 0 10 20
      "Alice@Example.COM" "ALICE@example.com" "secret1" "secret2" (by decide)
      (by decide) (by decide) (by decide) (by decide) (by decide) (by decide)).2.2
      " x@y.zw" "secret1" ' ' (Or.inl (by decide)) (by decide)⟩
